import Mathlib

/-!
# Verification of the fastapi-soft-uni health-check service

Shallow embedding of `src/project/app/main.py` and of the Settings
provider it imports from `app.config`.  The request handler, the module
initialisation (the `register_tortoise` call) and the response shape are
translated directly from `main.py`; the Settings provider (`Settings`,
`get_settings`) is not part of the repository sources and is modelled
from the specification.
-/

namespace FastapiSoftUni

/-- A process environment: maps a variable name to its value, if set.
Mirrors `os.environ`. -/
def Env : Type := String → Option String

/-- The empty process environment (no variables set). -/
def Env.empty : Env := fun _ => none

/-- Modelled from the spec: `app/config.py` is not in the repository; the
spec describes `Settings` as having attributes `environment` (string) and
`testing` (boolean). -/
structure Settings where
  environment : String
  testing : Bool
deriving DecidableEq, Repr

/-- Modelled from the spec: pydantic-style parsing of a boolean-valued
environment variable (the spec does not fix the truthy set; the claims do
not depend on it). -/
def parseBoolVar (v : String) : Bool :=
  ["1", "true", "True", "TRUE", "yes", "Yes", "on", "On"].contains v

/-- Modelled from the spec: `app/config.py` is not in the repository; per
the spec a `Settings` instance is "constructed from process environment
variables" with "default fallback values when variables are absent", the
defaults being `environment="dev"`, `testing=False`. -/
def Settings.fromEnv (env : Env) : Settings :=
  { environment := (env "ENVIRONMENT").getD "dev",
    testing :=
      match env "TESTING" with
      | none => false
      | some v => parseBoolVar v }

/-- Result of one call to the settings accessor: the returned value, the
cache after the call, and whether the process environment was read. -/
structure GetSettingsResult where
  value : Settings
  cache : Option Settings
  envRead : Bool
deriving DecidableEq, Repr

/-- Modelled from the spec: `app/config.py` is not in the repository; per
the spec `get_settings` is "a parameterless accessor [that] returns a
Settings instance, constructed from process environment variables, cached
so repeated calls within a process return the same values without
re-reading the environment".  The cache (an `lru_cache`-style memo) is
passed explicitly; `envRead` records whether this call read the
environment. -/
def get_settings (env : Env) : Option Settings → GetSettingsResult
  | none =>
      let s := Settings.fromEnv env
      ⟨s, some s, true⟩
  | some s => ⟨s, some s, false⟩

/-- JSON values appearing in the `/ping` response body. -/
inductive JsonVal where
  | str (s : String)
  | bool (b : Bool)
deriving DecidableEq, Repr

/-- The body returned by the `pong` handler in `main.py`:
`{"ping": "pong!", "environment": settings.environment,
"testing": settings.testing}`, embedded as an association list. -/
def pong (settings : Settings) : List (String × JsonVal) :=
  [("ping", JsonVal.str "pong!"),
   ("environment", JsonVal.str settings.environment),
   ("testing", JsonVal.bool settings.testing)]

/-- An HTTP response: status code and JSON-object body. -/
structure HttpResponse where
  status : Nat
  body : List (String × JsonVal)
deriving DecidableEq, Repr

/-- The `GET /ping` operation given already-resolved settings: FastAPI
returns the handler's dict with status 200. -/
def handlePing (settings : Settings) : HttpResponse :=
  ⟨200, pong settings⟩

/-- Application state visible to request handling: route registrations,
the settings cache, the database handle, and the process environment. -/
structure AppState where
  routes : List String
  cache : Option Settings
  dbHandle : Option String
  env : Env

/-- The `pong` handler body as a state transformer.  The source body
(`main.py` lines 26-32) is a single `return` expression over `settings`;
it contains no assignment or call that writes state, so its embedding
threads the application state through untouched. -/
def pongStep (settings : Settings) (st : AppState) :
    List (String × JsonVal) × AppState :=
  (pong settings, st)

/-- A full `GET /ping` request: the framework resolves
`Depends(get_settings)` against the cache, then runs the handler body. -/
def handleRequest (st : AppState) : HttpResponse × AppState :=
  let r := get_settings st.env st.cache
  let (body, st') := pongStep r.value { st with cache := r.cache }
  (⟨200, body⟩, st')

/-- The keyword arguments of the `register_tortoise(...)` call made at
module import time in `main.py`. -/
structure RegisterTortoiseCall where
  db_url : Option String
  modules : List (String × List String)
  generate_schemas : Bool
  add_exception_handlers : Bool
deriving DecidableEq, Repr

/-- The registration performed in `main.py`:
`register_tortoise(app, db_url=os.environ.get("DATABASE_URL"),
modules={"models": ["app.models.tortoise"]}, generate_schemas=False,
add_exception_handlers=True)`. -/
def register_tortoise_call (env : Env) : RegisterTortoiseCall :=
  { db_url := env "DATABASE_URL",
    modules := [("models", ["app.models.tortoise"])],
    generate_schemas := false,
    add_exception_handlers := true }

/-- Module import of `main.py` as a function of the process environment:
`some c` means the registration call `c` was made, `none` would mean it
was skipped.  In the source the call is a top-level statement, so it is
made for every environment. -/
def moduleInit (env : Env) : Option RegisterTortoiseCall :=
  some (register_tortoise_call env)

/-- Operations the program performs on the process-wide settings cache:
a direct `get_settings()` call, or a `GET /ping` request (which resolves
`Depends(get_settings)` and then runs the pure handler body). -/
inductive Op where
  | callGetSettings
  | callPing
deriving DecidableEq, Repr

/-- Process state threaded through the program's operations. -/
structure ProcState where
  env : Env
  cache : Option Settings

/-- Effect of one operation on the process state.  Both operations only
ever touch the cache through `get_settings`. -/
def stepOp : Op → ProcState → ProcState
  | Op.callGetSettings, st => { st with cache := (get_settings st.env st.cache).cache }
  | Op.callPing, st => { st with cache := (get_settings st.env st.cache).cache }

/-- Run a sequence of program operations from a process state. -/
def runOps (ops : List Op) (st : ProcState) : ProcState :=
  ops.foldl (fun s o => stepOp o s) st

/-- Claim C1: for every request, the `GET /ping` response body contains
the keys `ping`, `environment` and `testing`, with the value of `ping`
equal to the string `"pong!"`. -/
theorem ping_body_has_keys (s : Settings) :
    (handlePing s).body.lookup "ping" = some (JsonVal.str "pong!") ∧
    ((handlePing s).body.lookup "environment").isSome = true ∧
    ((handlePing s).body.lookup "testing").isSome = true :=
  ⟨rfl, rfl, rfl⟩

/-- Claim C2: the `GET /ping` operation always succeeds with HTTP status
200, both for the bare handler and for the full request pipeline (both
are total functions, so no request can fail or raise). -/
theorem ping_always_200 (s : Settings) (st : AppState) :
    (handlePing s).status = 200 ∧ (handleRequest st).1.status = 200 :=
  ⟨rfl, rfl⟩

/-- Claim C3: the `environment` and `testing` fields of the `GET /ping`
response equal exactly the attributes of the `Settings` value the
settings provider resolves to at request time. -/
theorem ping_reflects_settings (st : AppState) :
    (handleRequest st).1.body.lookup "environment"
      = some (JsonVal.str (get_settings st.env st.cache).value.environment) ∧
    (handleRequest st).1.body.lookup "testing"
      = some (JsonVal.bool (get_settings st.env st.cache).value.testing) := by
  obtain ⟨routes, cache, db, env⟩ := st
  cases cache <;> exact ⟨rfl, rfl⟩

/-- Claim C4: the settings accessor is cached: a repeated call returns a
value equal to the first call's, does not read the process environment
(`envRead = false`), and its result is independent of whatever the
environment holds at the time of the repeated call. -/
theorem get_settings_cached (env env2 : Env) (c : Option Settings) :
    (get_settings env2 (get_settings env c).cache).value
      = (get_settings env c).value ∧
    (get_settings env2 (get_settings env c).cache).envRead = false := by
  cases c <;> exact ⟨rfl, rfl⟩

/-- Claim C5: with no environment variables set, the default settings are
`environment = "dev"`, `testing = false`, and the `GET /ping` response is
exactly `{"ping": "pong!", "environment": "dev", "testing": false}` with
status 200. -/
theorem default_settings_response :
    Settings.fromEnv Env.empty = ⟨"dev", false⟩ ∧
    handlePing (Settings.fromEnv Env.empty) =
      ⟨200, [("ping", JsonVal.str "pong!"),
             ("environment", JsonVal.str "dev"),
             ("testing", JsonVal.bool false)]⟩ :=
  ⟨rfl, rfl⟩

/-- Claim C6: at startup (module import) the application registers the
database integration with a URL read from the environment variable
`DATABASE_URL`, with schema generation disabled and exception handlers
attached. -/
theorem startup_registration (env : Env) :
    moduleInit env = some (register_tortoise_call env) ∧
    (register_tortoise_call env).db_url = env "DATABASE_URL" ∧
    (register_tortoise_call env).generate_schemas = false ∧
    (register_tortoise_call env).add_exception_handlers = true :=
  ⟨rfl, rfl, rfl, rfl⟩

/-- Claim C7: the `GET /ping` handler body has no side effect beyond
producing its response: the application state (route registrations,
settings cache, database handle, process environment) after the handler
runs equals the state before it ran. -/
theorem pong_no_side_effect (s : Settings) (st : AppState) :
    (pongStep s st).2 = st :=
  rfl

/-- Claim C8: the `GET /ping` handler is deterministic in the settings
value alone: given equal `Settings`, two runs from arbitrary (possibly
different) application states produce identical responses. -/
theorem pong_deterministic (s : Settings) (st st2 : AppState) :
    (pongStep s st).1 = (pongStep s st2).1 :=
  rfl

/-- Claim C9: a constructed `Settings` value is immutable and constructed
once per process: once the cache holds a settings value, no sequence of
program operations (`get_settings` calls or `/ping` requests) ever
changes it, so its `environment` and `testing` attributes never change. -/
theorem settings_immutable (ops : List Op) (st : ProcState) (s : Settings)
    (h : st.cache = some s) : (runOps ops st).cache = some s := by
  induction ops generalizing st with
  | nil => exact h
  | cons o ops ih =>
      have h2 : (stepOp o st).cache = some s := by
        cases o <;> simp [stepOp, h, get_settings]
      exact ih (stepOp o st) h2

/-- Witness for claim C9 at a concrete state and operation sequence. -/
theorem settings_immutable_witness :
    (runOps [Op.callPing, Op.callGetSettings]
        { env := Env.empty, cache := some ⟨"dev", false⟩ }).cache
      = some ⟨"dev", false⟩ :=
  settings_immutable [Op.callPing, Op.callGetSettings]
    { env := Env.empty, cache := some ⟨"dev", false⟩ } ⟨"dev", false⟩ rfl

/-- Claim C10: database registration happens unconditionally at the
module import time: even when `DATABASE_URL` is absent from the process
environment,
`register_tortoise` is still called, receiving `db_url = none` rather
than the registration being skipped. -/
theorem registration_unconditional (env : Env)
    (h : env "DATABASE_URL" = none) :
    moduleInit env = some
      { db_url := none,
        modules := [("models", ["app.models.tortoise"])],
        generate_schemas := false,
        add_exception_handlers := true } := by
  simp [moduleInit, register_tortoise_call, h]

/-- Witness for claim C10 at the empty environment. -/
theorem registration_unconditional_witness :
    moduleInit Env.empty = some
      { db_url := none,
        modules := [("models", ["app.models.tortoise"])],
        generate_schemas := false,
        add_exception_handlers := true } :=
  registration_unconditional Env.empty rfl

end FastapiSoftUni
